import Mathlib

/-!
Shallow embedding of `src/error.rs` from the eww AST front-end:
the error taxonomy `AstError`, the span-derivation function
`get_parse_error_span`, the attachment combinators `spanned`,
`or_missing`, `at` and the `spanned!` scoped block, and the
diagnostic renderer `pretty_diagnostic`.

External collaborator types (from `crate::expr`, `crate::lexer`,
`lalrpop_util` and `codespan_reporting`) are embedded as the minimal
data the error module observes of them.
-/

/-- Modelled from the spec: `Span` (defined in `crate::expr`, outside the
given source) is a tuple struct `Span(start, end, file_id)`; the code
accesses it positionally as `span.0`, `span.1`, `span.2`.  Field `start`
is `.0`, `stop` is `.1`, `file` is `.2`. -/
structure Span where
  start : Nat
  stop : Nat
  file : Nat
deriving DecidableEq, Repr

/-- Modelled from the spec: `ExprType` (in `crate::expr`, outside the given
source) is an identifier for the syntactic or semantic category of an AST
node; the error module only compares it and formats it, so it is embedded
as its display name. -/
structure ExprType where
  name : String
deriving DecidableEq, Repr

namespace lexer

/-- Modelled from the spec: `lexer::Token` is opaque to the error module
beyond equality and being embeddable in a parse failure; embedded as a
token identifier. -/
structure Token where
  id : Nat
deriving DecidableEq, Repr

/-- Modelled from the spec: `lexer::LexicalError` is a lexer-originated
failure value, opaque beyond equality and formattability; its message is
expected to carry its own positional detail. -/
structure LexicalError where
  msg : String
deriving DecidableEq, Repr

end lexer

namespace lalrpop

/-- The five shapes of `lalrpop_util::ParseError<usize, lexer::Token,
lexer::LexicalError>` as consumed by `get_parse_error_span`: invalid
token at a location, unexpected end of file at a location, unrecognized
token spanning `(start, token, end)`, extra token spanning
`(start, token, end)`, and a lexer-originated `User` failure. -/
inductive ParseError where
  | InvalidToken (location : Nat)
  | UnrecognizedEOF (location : Nat) (expected : List String)
  | UnrecognizedToken (token : Nat × lexer.Token × Nat) (expected : List String)
  | ExtraToken (token : Nat × lexer.Token × Nat)
  | User (error : lexer.LexicalError)
deriving DecidableEq, Repr

/-- Modelled from the spec: the embedded parse failure is retained
verbatim for message formatting; its own `Display` implementation lives
in the external `lalrpop_util` crate and is embedded here opaquely as a
per-shape message string. -/
def ParseError.display : ParseError → String
  | .InvalidToken _ => "Invalid token"
  | .UnrecognizedEOF _ _ => "Unrecognized EOF"
  | .UnrecognizedToken _ _ => "Unrecognized token"
  | .ExtraToken _ => "Extra token"
  | .User e => e.msg

end lalrpop

/-- The error taxonomy `AstError` of `src/error.rs`: three simple
variants each carrying an `Option Span` plus payload, and `ParseError`
carrying an optional file id and the embedded parse failure verbatim. -/
inductive AstError where
  | InvalidDefinition (span : Option Span)
  | MissingNode (span : Option Span) (t : ExprType)
  | WrongExprType (span : Option Span) (expected : ExprType) (actual : ExprType)
  | ParseError (file_id : Option Nat) (source : lalrpop.ParseError)
deriving DecidableEq, Repr

/-- The result alias `AstResult<T> = Result<T, AstError>`. -/
def AstResult (T : Type) := Except AstError T

/-- Embeds `get_parse_error_span` from `src/error.rs`: derives a span
from the shape of a lalrpop parse failure.  Zero-width span at the
location for `InvalidToken` and `UnrecognizedEOF`, span over
`(token.0, token.2)` for `UnrecognizedToken` and `ExtraToken`, and none
for a lexer `User` failure. -/
def get_parse_error_span (file_id : Nat) (err : lalrpop.ParseError) : Option Span :=
  match err with
  | .InvalidToken location => some ⟨location, location, file_id⟩
  | .UnrecognizedEOF location _expected => some ⟨location, location, file_id⟩
  | .UnrecognizedToken token _expected => some ⟨token.1, token.2.2, file_id⟩
  | .ExtraToken token => some ⟨token.1, token.2.2, file_id⟩
  | .User _error => none

/-- Embeds `AstError::get_span`: the carried field for the three simple
variants; for `ParseError`, `file_id.and_then(|id| get_parse_error_span(id, source))`. -/
def AstError.get_span : AstError → Option Span
  | .InvalidDefinition span => span
  | .MissingNode span _ => span
  | .WrongExprType span _ _ => span
  | .ParseError file_id source => file_id.bind fun id => get_parse_error_span id source

/-- Embeds the `thiserror`-derived `Display` of `AstError`: the fixed
per-variant message templates of `src/error.rs`
("Definition invalid", "Expected a {1}, but got nothing",
"Wrong type of expression: Expected {1} but got {2}",
"Parse error: {source}"). -/
def AstError.display : AstError → String
  | .InvalidDefinition _ => "Definition invalid"
  | .MissingNode _ t => "Expected a " ++ t.name ++ ", but got nothing"
  | .WrongExprType _ x y =>
      "Wrong type of expression: Expected " ++ x.name ++ " but got " ++ y.name
  | .ParseError _ source => "Parse error: " ++ source.display

/-- Modelled from the spec: the severity levels of
`codespan_reporting::diagnostic::Severity` (external crate); the code
only uses `Diagnostic::error()`. -/
inductive Severity where
  | bug
  | error
  | warning
  | note
  | help
deriving DecidableEq, Repr

/-- Modelled from the spec: label styles of
`codespan_reporting::diagnostic::LabelStyle`; the code only builds
primary labels. -/
inductive LabelStyle where
  | primary
  | secondary
deriving DecidableEq, Repr

/-- Modelled from the spec: a `codespan_reporting` label, a byte range
within a file, with a style. -/
structure Label where
  style : LabelStyle
  fileId : Nat
  rangeStart : Nat
  rangeStop : Nat
deriving DecidableEq, Repr

/-- Builds a primary label, as `Label::primary(file_id, start..end)` does. -/
def Label.primary (fileId : Nat) (rangeStart rangeStop : Nat) : Label :=
  ⟨.primary, fileId, rangeStart, rangeStop⟩

/-- Modelled from the spec: a `codespan_reporting` diagnostic, a severity
plus a message plus a list of labels. -/
structure Diagnostic where
  severity : Severity
  message : String
  labels : List Label
deriving DecidableEq, Repr

/-- Builds an empty error-severity diagnostic, as `Diagnostic::error()` does. -/
def Diagnostic.error : Diagnostic :=
  ⟨.error, "", []⟩

/-- Sets the diagnostic message, as `with_message` does. -/
def Diagnostic.with_message (d : Diagnostic) (m : String) : Diagnostic :=
  { d with message := m }

/-- Appends labels, as `with_labels` does (it extends the label list). -/
def Diagnostic.with_labels (d : Diagnostic) (ls : List Label) : Diagnostic :=
  { d with labels := d.labels ++ ls }

/-- Modelled from the spec: the file registry
`codespan_reporting::files::SimpleFiles<&str, &str>` maps file ids to a
display name and full text; `pretty_diagnostic` takes it but never reads
it. -/
def SimpleFiles := List (String × String)

/-- Embeds `AstError::pretty_diagnostic`: an error-severity diagnostic
with the error's formatted message; when `get_span` yields a span, one
primary label over its byte range in its file, otherwise no label. -/
def AstError.pretty_diagnostic (e : AstError) (_files : SimpleFiles) : Diagnostic :=
  let diag := Diagnostic.error.with_message e.display
  match e.get_span with
  | some span => diag.with_labels [Label.primary span.file span.start span.stop]
  | none => diag

/-- Embeds `AstError::from_parse_error`: wraps a parse failure with its
file id. -/
def AstError.from_parse_error (file_id : Nat) (err : lalrpop.ParseError) : AstError :=
  AstError.ParseError (some file_id) err

/-- Embeds the free function `spanned` (span attachment): sets the span
field of a simple variant whose field is `None`; every other error value
is returned unchanged. -/
def spanned (span : Span) (err : AstError) : AstError :=
  match err with
  | .InvalidDefinition none => .InvalidDefinition (some span)
  | .MissingNode none x => .MissingNode (some span) x
  | .WrongExprType none x y => .WrongExprType (some span) x y
  | x => x

/-- Embeds `OptionAstErrorExt::or_missing`:
`self.ok_or(AstError::MissingNode(None, t))`. -/
def or_missing {T : Type} (o : Option T) (t : ExprType) : Except AstError T :=
  match o with
  | some v => .ok v
  | none => .error (.MissingNode none t)

/-- Embeds `AstResultExt::at`: `self.map_err(|err| spanned(span, err))`.
Named `atSpan` because `at` is reserved in Lean. -/
def atSpan {T : Type} (r : Except AstError T) (span : Span) : Except AstError T :=
  match r with
  | .ok v => .ok v
  | .error err => .error (spanned span err)

/-- Embeds the `spanned!` macro: evaluates the block to a result and
applies `.at(span)` to it. -/
def spannedBlock {T : Type} (span : Span) (body : Except AstError T) : Except AstError T :=
  atSpan body span

/-- Holds exactly when the error is one of the three simple variants and
its span field is `None` — the "freshly constructed, unpositioned" states. -/
def AstError.isSimpleUnpositioned : AstError → Bool
  | .InvalidDefinition none => true
  | .MissingNode none _ => true
  | .WrongExprType none _ _ => true
  | _ => false

/-- Holds exactly when the error already carries `Some` span in its field,
or is the `ParseError` variant. -/
def AstError.isPositionedOrParse : AstError → Bool
  | .InvalidDefinition (some _) => true
  | .MissingNode (some _) _ => true
  | .WrongExprType (some _) _ _ => true
  | .ParseError _ _ => true
  | _ => false

/-- C1 — Attach-once: for any simple-variant error whose span field is
`None` and any two distinct spans, attaching `s1` after `s2` is a no-op:
`spanned s1 (spanned s2 e) = spanned s2 e`. -/
theorem attach_once (s1 s2 : Span) (e : AstError)
    (hs : s1 ≠ s2) (he : e.isSimpleUnpositioned = true) :
    spanned s1 (spanned s2 e) = spanned s2 e := by
  cases e with
  | InvalidDefinition sp => cases sp <;> simp_all [AstError.isSimpleUnpositioned, spanned]
  | MissingNode sp t => cases sp <;> simp_all [AstError.isSimpleUnpositioned, spanned]
  | WrongExprType sp x y => cases sp <;> simp_all [AstError.isSimpleUnpositioned, spanned]
  | ParseError fid src => simp_all [AstError.isSimpleUnpositioned]

/-- Witness for C1 at concrete spans and a concrete `MissingNode`. -/
theorem attach_once_witness :
    spanned ⟨1, 2, 0⟩ (spanned ⟨3, 4, 1⟩ (AstError.MissingNode none ⟨"number"⟩))
      = spanned ⟨3, 4, 1⟩ (AstError.MissingNode none ⟨"number"⟩) :=
  attach_once ⟨1, 2, 0⟩ ⟨3, 4, 1⟩ (AstError.MissingNode none ⟨"number"⟩)
    (by decide) (by rfl)

/-- C2 — Attach-identity: if `e` already carries `Some` span in its field,
or is the `ParseError` variant, then `spanned s e = e` for every span. -/
theorem attach_identity (s : Span) (e : AstError)
    (he : e.isPositionedOrParse = true) :
    spanned s e = e := by
  cases e with
  | InvalidDefinition sp => cases sp <;> simp_all [AstError.isPositionedOrParse, spanned]
  | MissingNode sp t => cases sp <;> simp_all [AstError.isPositionedOrParse, spanned]
  | WrongExprType sp x y => cases sp <;> simp_all [AstError.isPositionedOrParse, spanned]
  | ParseError fid src => rfl

/-- Witness for C2 at a positioned `InvalidDefinition`. -/
theorem attach_identity_witness :
    spanned ⟨7, 8, 0⟩ (AstError.InvalidDefinition (some ⟨1, 2, 3⟩))
      = AstError.InvalidDefinition (some ⟨1, 2, 3⟩) :=
  attach_identity ⟨7, 8, 0⟩ (AstError.InvalidDefinition (some ⟨1, 2, 3⟩)) (by rfl)

/-- C3 — Span derivation is total and follows the per-shape policy:
zero-width span at the location for `InvalidToken` and `UnrecognizedEOF`,
span over `(start, end)` for `UnrecognizedToken` and `ExtraToken`, and
`none` for a lexer `User` failure.  Totality over the five shapes is by
the exhaustiveness of the match; `get_parse_error_span` is a total Lean
function, so no shape is unhandled or can panic. -/
theorem span_derivation_policy :
    (∀ fid loc, get_parse_error_span fid (.InvalidToken loc) = some ⟨loc, loc, fid⟩)
    ∧ (∀ fid loc expected,
        get_parse_error_span fid (.UnrecognizedEOF loc expected) = some ⟨loc, loc, fid⟩)
    ∧ (∀ fid a tok b expected,
        get_parse_error_span fid (.UnrecognizedToken (a, tok, b) expected)
          = some ⟨a, b, fid⟩)
    ∧ (∀ fid a tok b,
        get_parse_error_span fid (.ExtraToken (a, tok, b)) = some ⟨a, b, fid⟩)
    ∧ (∀ fid err, get_parse_error_span fid (.User err) = none) :=
  ⟨fun _ _ => rfl, fun _ _ _ => rfl, fun _ _ _ _ _ => rfl, fun _ _ _ _ => rfl,
    fun _ _ => rfl⟩

/-- C4 — `get_span` returns the carried field directly for the three
simple variants; for `ParseError` it is `some` exactly when the file id
is present and a span is derivable from the embedded failure, and `none`
when the file id is absent. -/
theorem get_span_behaviour :
    (∀ sp, (AstError.InvalidDefinition sp).get_span = sp)
    ∧ (∀ sp t, (AstError.MissingNode sp t).get_span = sp)
    ∧ (∀ sp x y, (AstError.WrongExprType sp x y).get_span = sp)
    ∧ (∀ id src,
        (AstError.ParseError (some id) src).get_span = get_parse_error_span id src)
    ∧ (∀ src, (AstError.ParseError none src).get_span = none) :=
  ⟨fun _ => rfl, fun _ _ => rfl, fun _ _ _ => rfl, fun _ _ => rfl, fun _ => rfl⟩

/-- C5 — Renderer graceful degradation: `pretty_diagnostic` is a total
function; when `get_span` is `none` the diagnostic has zero labels, and
when `get_span` is `some ⟨a, b, f⟩` it has exactly one primary label over
the byte range from `a` to `b` in file `f`. -/
theorem renderer_degradation (e : AstError) (files : SimpleFiles) :
    (e.pretty_diagnostic files).labels
      = match e.get_span with
        | none => []
        | some sp => [Label.primary sp.file sp.start sp.stop] := by
  unfold AstError.pretty_diagnostic
  cases e.get_span <;> rfl

/-- C6 — `or_missing` totality: `none` always yields the unpositioned
`MissingNode` error for the requested kind, and `some v` always yields
`Ok v`, regardless of the kind or value. -/
theorem or_missing_totality :
    (∀ (k : ExprType), or_missing (none : Option Nat) k
        = .error (.MissingNode none k))
    ∧ (∀ (T : Type) (v : T) (k : ExprType), or_missing (some v) k = .ok v) :=
  ⟨fun _ => rfl, fun _ _ _ => rfl⟩

/-- C7 — Scoped-block composition: nesting `spanned!` scopes, a body
failing with an unpositioned simple-variant error produces an error whose
span is the inner span, not the outer one. -/
theorem spanned_block_composition (T : Type) (inner outer : Span) (e : AstError)
    (he : e.isSimpleUnpositioned = true) :
    spannedBlock outer (spannedBlock inner (Except.error e : Except AstError T))
        = Except.error (spanned inner e)
      ∧ (spanned inner e).get_span = some inner := by
  constructor
  · show Except.error (spanned outer (spanned inner e)) = Except.error (spanned inner e)
    cases e with
    | InvalidDefinition sp =>
        cases sp <;> simp_all [AstError.isSimpleUnpositioned, spanned]
    | MissingNode sp t =>
        cases sp <;> simp_all [AstError.isSimpleUnpositioned, spanned]
    | WrongExprType sp x y =>
        cases sp <;> simp_all [AstError.isSimpleUnpositioned, spanned]
    | ParseError fid src => simp_all [AstError.isSimpleUnpositioned]
  · cases e with
    | InvalidDefinition sp =>
        cases sp <;> simp_all [AstError.isSimpleUnpositioned, spanned, AstError.get_span]
    | MissingNode sp t =>
        cases sp <;> simp_all [AstError.isSimpleUnpositioned, spanned, AstError.get_span]
    | WrongExprType sp x y =>
        cases sp <;> simp_all [AstError.isSimpleUnpositioned, spanned, AstError.get_span]
    | ParseError fid src => simp_all [AstError.isSimpleUnpositioned]

/-- Witness for C7: nested scopes around a concrete `MissingNode`, the
inner span `⟨1, 2, 0⟩` wins over the outer `⟨5, 9, 0⟩`. -/
theorem spanned_block_composition_witness :
    spannedBlock ⟨5, 9, 0⟩
        (spannedBlock ⟨1, 2, 0⟩
          (Except.error (AstError.MissingNode none ⟨"string"⟩) : Except AstError Unit))
        = Except.error (spanned ⟨1, 2, 0⟩ (AstError.MissingNode none ⟨"string"⟩))
      ∧ (spanned ⟨1, 2, 0⟩ (AstError.MissingNode none ⟨"string"⟩)).get_span
        = some ⟨1, 2, 0⟩ :=
  spanned_block_composition Unit ⟨1, 2, 0⟩ ⟨5, 9, 0⟩
    (AstError.MissingNode none ⟨"string"⟩) (by rfl)

/-- C8 — `from_parse_error` wraps the failure verbatim with `Some file_id`;
the end-to-end example: an unrecognized token over bytes 10 to 13 of file 2
yields `get_span = some ⟨10, 13, 2⟩` and a diagnostic with one primary
label over that range in file 2, for any file registry. -/
theorem from_parse_error_correct :
    (∀ f p, AstError.from_parse_error f p = AstError.ParseError (some f) p)
    ∧ (∀ tok expected,
        (AstError.from_parse_error 2
            (.UnrecognizedToken (10, tok, 13) expected)).get_span
          = some ⟨10, 13, 2⟩)
    ∧ (∀ tok expected files,
        ((AstError.from_parse_error 2
            (.UnrecognizedToken (10, tok, 13) expected)).pretty_diagnostic files).labels
          = [Label.primary 2 10 13]) :=
  ⟨fun _ _ => rfl, fun _ _ => rfl, fun _ _ _ => rfl⟩

/-- C9 — Round-trip between attachment and the accessor: for any span and
any simple-variant error whose span field is `None`,
`(spanned s e).get_span = some s`. -/
theorem attach_get_span_roundtrip (s : Span) (e : AstError)
    (he : e.isSimpleUnpositioned = true) :
    (spanned s e).get_span = some s := by
  cases e with
  | InvalidDefinition sp =>
      cases sp <;> simp_all [AstError.isSimpleUnpositioned, spanned, AstError.get_span]
  | MissingNode sp t =>
      cases sp <;> simp_all [AstError.isSimpleUnpositioned, spanned, AstError.get_span]
  | WrongExprType sp x y =>
      cases sp <;> simp_all [AstError.isSimpleUnpositioned, spanned, AstError.get_span]
  | ParseError fid src => simp_all [AstError.isSimpleUnpositioned]

/-- Witness for C9 at a concrete span and `WrongExprType`. -/
theorem attach_get_span_roundtrip_witness :
    (spanned ⟨4, 6, 1⟩ (AstError.WrongExprType none ⟨"list"⟩ ⟨"symbol"⟩)).get_span
      = some ⟨4, 6, 1⟩ :=
  attach_get_span_roundtrip ⟨4, 6, 1⟩
    (AstError.WrongExprType none ⟨"list"⟩ ⟨"symbol"⟩) (by rfl)

/-- C10 — Renderer shape: for every error and file registry, the
diagnostic has error severity and its message is the error's `Display`
formatting. -/
theorem renderer_shape (e : AstError) (files : SimpleFiles) :
    (e.pretty_diagnostic files).severity = Severity.error
      ∧ (e.pretty_diagnostic files).message = e.display := by
  unfold AstError.pretty_diagnostic
  cases e.get_span <;> exact ⟨rfl, rfl⟩
